import Mathlib

/-!
Shallow embedding of the ENPM631 chat-server repository (Python sources under
`src/`) and proofs about its specified behaviour.

Conventions of the embedding:
* The coordination store (Redis) is modelled by `RedisState`: each family of
  keys (`online_users`, `online_user:<u>`, `session:<token>`,
  `user_session:<u>`, `pending_messages:<u>`) becomes one explicit field; a
  key exists iff it is bound in the corresponding association list.  TTLs are
  not timed out inside the model: expiry of a key is represented by its
  absence.
* Every `RedisManager` method wraps its body in `try/except` and returns a
  sentinel on any exception from the underlying client.  Each embedded
  operation therefore takes a final `fail : Bool` argument meaning "the
  underlying store raised during this call"; the `fail = true` branch is the
  `except` branch of the source and leaves the state unchanged, returning the
  sentinel.
* The relational store is modelled per table by lists of rows; the
  `DatabaseManager` operations used by the claims are embedded on the happy
  path of the connection pool.
-/

namespace ChatSpec

/-- Association-list get: first binding of the key, as in a keyed store. -/
def aget {β : Type} : List (String × β) → String → Option β
  | [], _ => none
  | (k', v) :: t, k => if k' = k then some v else aget t k

/-- Association-list delete: drop every binding of the key. -/
def adel {β : Type} : List (String × β) → String → List (String × β)
  | [], _ => []
  | (k', v) :: t, k => if k' = k then adel t k else (k', v) :: adel t k

/-- Association-list set: bind the key, replacing any previous binding. -/
def aset {β : Type} (l : List (String × β)) (k : String) (v : β) :
    List (String × β) :=
  (k, v) :: adel l k

/-! ## Coordinator (Redis) state — `src/redis_manager.py` -/

/-- Value of an `online_user:<username>` key: `{server_id, login_time, user_id}`
(the informational `login_time` is not tracked). -/
structure OnlineInfo where
  server_id : String
  user_id : Nat
deriving DecidableEq

/-- Value of a `session:<token>` key: `{username, user_id, created_at,
last_active}` (the two timestamps are informational and not tracked). -/
structure SessionData where
  username : String
  user_id : Nat
deriving DecidableEq

/-- An entry of a `pending_messages:<username>` list: `{content, timestamp}`. -/
structure PendingMsg where
  content : String
  timestamp : String
deriving DecidableEq

/-- A JSON object published on a pub/sub channel. -/
inductive Payload
  /-- `{'target_username', 'message', 'sender_server_id'}` as published by
  `ChatServer.send_to_user`. -/
  | chatMsg (target_username message sender_server_id : String)
  /-- `{'event_type': 'group_created', ...}` as published by
  `GroupChatManager.create_group`. -/
  | groupCreated (group_id : Nat) (group_name : String) (creator_user_id : Nat)
deriving DecidableEq

/-- The coordination store.  `published` is the log of successfully delivered
`publish` calls, in order. -/
structure RedisState where
  onlineSet : List String
  onlineDetail : List (String × OnlineInfo)
  sessions : List (String × SessionData)
  userSession : List (String × String)
  pending : List (String × List PendingMsg)
  published : List (String × Payload)
deriving DecidableEq

namespace RedisManager

/-- `RedisManager.add_online_user`: set `online_user:<u>` (with TTL) and
`sadd` the username into `online_users`; `False` on exception. -/
def add_online_user (st : RedisState) (username server_id : String)
    (user_id : Nat) (fail : Bool) : RedisState × Bool :=
  if fail then (st, false)
  else
    ({ st with
        onlineDetail := aset st.onlineDetail username ⟨server_id, user_id⟩,
        onlineSet :=
          if username ∈ st.onlineSet then st.onlineSet
          else st.onlineSet ++ [username] },
      true)

/-- `RedisManager.remove_online_user`: delete `online_user:<u>` and `srem`
from `online_users`; `False` on exception. -/
def remove_online_user (st : RedisState) (username : String) (fail : Bool) :
    RedisState × Bool :=
  if fail then (st, false)
  else
    ({ st with
        onlineDetail := adel st.onlineDetail username,
        onlineSet := st.onlineSet.filter (fun u => u ≠ username) },
      true)

/-- `RedisManager.is_user_online`: `sismember` then detail-key `exists`;
a member without a detail key is reconciled (`srem`) and reported offline;
`False` on exception. -/
def is_user_online (st : RedisState) (username : String) (fail : Bool) :
    RedisState × Bool :=
  if fail then (st, false)
  else if username ∈ st.onlineSet then
    if (aget st.onlineDetail username).isSome then (st, true)
    else
      ({ st with onlineSet := st.onlineSet.filter (fun u => u ≠ username) },
        false)
  else (st, false)

/-- `RedisManager.get_online_usernames`: iterate `smembers online_users`,
keep entries whose detail key exists, `srem` the stale ones; `[]` on
exception. -/
def get_online_usernames (st : RedisState) (fail : Bool) :
    RedisState × List String :=
  if fail then (st, [])
  else
    let valid := st.onlineSet.filter (fun u => (aget st.onlineDetail u).isSome)
    ({ st with onlineSet := valid }, valid)

/-- `RedisManager.publish_message`: publish a JSON payload on a channel;
`False` on exception. -/
def publish_message (st : RedisState) (channel : String) (msg : Payload)
    (fail : Bool) : RedisState × Bool :=
  if fail then (st, false)
  else ({ st with published := st.published ++ [(channel, msg)] }, true)

/-- `RedisManager.create_session`: store `session:<token>` and the reverse
index `user_session:<username>`, both with TTL 3600 s; the fresh UUID is an
argument of the embedding; `None` on exception. -/
def create_session (st : RedisState) (username : String) (user_id : Nat)
    (token : String) (fail : Bool) : RedisState × Option String :=
  if fail then (st, none)
  else
    ({ st with
        sessions := aset st.sessions token ⟨username, user_id⟩,
        userSession := aset st.userSession username token },
      some token)

/-- `RedisManager.get_session`: read `session:<token>`; `None` on
exception or absence. -/
def get_session (st : RedisState) (token : String) (fail : Bool) :
    RedisState × Option SessionData :=
  if fail then (st, none) else (st, aget st.sessions token)

/-- `RedisManager.update_session_heartbeat`: if `session:<token>` exists,
refresh its TTL, rewrite it with a new `last_active`, and refresh the
`user_session` TTL (all TTL-only effects, identities in this model);
`False` on exception or absence. -/
def update_session_heartbeat (st : RedisState) (token : String) (fail : Bool) :
    RedisState × Bool :=
  if fail then (st, false)
  else if (aget st.sessions token).isSome then (st, true)
  else (st, false)

/-- `RedisManager.delete_session`: look the token up; if present delete
`session:<token>`, `user_session:<username>` and `pending_messages:<username>`;
`False` on exception or absence. -/
def delete_session (st : RedisState) (token : String) (fail : Bool) :
    RedisState × Bool :=
  if fail then (st, false)
  else
    match aget st.sessions token with
    | none => (st, false)
    | some data =>
        ({ st with
            sessions := adel st.sessions token,
            userSession := adel st.userSession data.username,
            pending := adel st.pending data.username },
          true)

/-- `RedisManager.save_pending_message`: `rpush` `{content, timestamp}` onto
`pending_messages:<username>`, refresh its TTL, and `ltrim` to the last 100
entries when the list exceeds 100; `False` on exception. -/
def save_pending_message (st : RedisState) (username content timestamp : String)
    (fail : Bool) : RedisState × Bool :=
  if fail then (st, false)
  else
    let l := ((aget st.pending username).getD []) ++ [⟨content, timestamp⟩]
    let l' := if 100 < l.length then l.drop (l.length - 100) else l
    ({ st with pending := aset st.pending username l' }, true)

/-- `RedisManager.get_pending_messages`: `lrange` the whole
`pending_messages:<username>` list, then delete the key when `clear`;
`[]` on exception. -/
def get_pending_messages (st : RedisState) (username : String) (clear : Bool)
    (fail : Bool) : RedisState × List PendingMsg :=
  if fail then (st, [])
  else
    let msgs := (aget st.pending username).getD []
    (if clear then { st with pending := adel st.pending username } else st,
      msgs)

end RedisManager

/-! ## Replica fabric — `src/chat_server.py` -/

/-- Per-replica state: the coordination store plus the pod-local
`ChatServer.online_users` map.  A username is in `localWriters` iff it has a
`UserThread` on this pod; the value is the sequence of lines written to that
session's socket writer. -/
structure ReplicaState where
  redis : RedisState
  localWriters : List (String × List String)
deriving DecidableEq

namespace ChatServer

/-- `UserThread.send_message` on the thread cached for `username`: write the
line to that session's writer. -/
def write_line (lw : List (String × List String)) (username line : String) :
    List (String × List String) :=
  aset lw username (((aget lw username).getD []) ++ [line])

/-- `ChatServer.send_to_user`: consult `RedisManager.is_user_online`; if the
target is offline return `False`; if it is cached on this pod, write the line
directly and return `True`; otherwise publish
`{'target_username', 'message', 'sender_server_id'}` on `chat_messages` and
return the publish's success flag.  `failOnline` / `failPublish` are the
failure flags of the two coordinator calls. -/
def send_to_user (rs : ReplicaState) (server_id recipient_username message : String)
    (failOnline failPublish : Bool) : ReplicaState × Bool :=
  let r := RedisManager.is_user_online rs.redis recipient_username failOnline
  if !r.2 then ({ rs with redis := r.1 }, false)
  else if (aget rs.localWriters recipient_username).isSome then
    ({ redis := r.1,
       localWriters := write_line rs.localWriters recipient_username message },
      true)
  else
    let p := RedisManager.publish_message r.1 "chat_messages"
      (.chatMsg recipient_username message server_id) failPublish
    ({ rs with redis := p.1 }, p.2)

end ChatServer

/-! ## Connection session — `src/user_thread.py` -/

/-- Durable (relational) sessions table: `session_id ↦ is_active`. -/
def DbSessions := List (Nat × Bool)

/-- `DatabaseManager.end_session`: set `is_active = FALSE` for the row. -/
def end_session (db : DbSessions) (session_id : Nat) : DbSessions :=
  db.map (fun p => if p.1 = session_id then (p.1, false) else p)

/-- Combined state a `UserThread` touches on disconnect. -/
structure ServerState where
  redis : RedisState
  localWriters : List (String × List String)
  dbSessions : List (Nat × Bool)
deriving DecidableEq

namespace UserThread

/-- The `finally` block of `UserThread.run`, reached on every exit from the
menu loop — `bye`, empty read, or `IOError` alike: `ChatServer.remove_user`
(drop the local cache entry and `RedisManager.remove_online_user`) and, when a
durable session was opened, `DatabaseManager.end_session`.  It performs no
call on the resume token. -/
def run_cleanup (ss : ServerState) (user_name : String)
    (session_id : Option Nat) : ServerState :=
  let r := RedisManager.remove_online_user ss.redis user_name false
  { redis := r.1,
    localWriters := adel ss.localWriters user_name,
    dbSessions :=
      match session_id with
      | none => ss.dbSessions
      | some sid => end_session ss.dbSessions sid }

/-- `UserThread.handle_session_resume` (coordinator effects): validate the
token via `get_session`; reject empty username or user id 0 (Python falsiness
checks); purge any stale presence entry with `remove_online_user`; refresh the
token's TTL; drain `pending_messages` with `clear=True`.  Returns the restored
`(username, user_id)` and the drained list, or `none` when the token is
rejected. -/
def handle_session_resume (st : RedisState) (session_token : String) :
    RedisState × Option (String × Nat × List PendingMsg) :=
  match (RedisManager.get_session st session_token false).2 with
  | none => (st, none)
  | some data =>
      if data.username = "" ∨ data.user_id = 0 then (st, none)
      else
        let r1 := RedisManager.remove_online_user st data.username false
        let r2 := RedisManager.update_session_heartbeat r1.1 session_token false
        let r3 := RedisManager.get_pending_messages r2.1 data.username true false
        (r3.1, some (data.username, data.user_id, r3.2))

end UserThread

/-! ## Persistence gateway — `src/db_manager.py` -/

/-- The `conversations` table: rows `(conversation_id, participant1_id,
participant2_id)` plus the sequence feeding `conversation_id`. -/
structure ConvDb where
  nextConvId : Nat
  convs : List (Nat × Nat × Nat)
deriving DecidableEq

/-- `SELECT conversation_id FROM conversations WHERE participant1_id = p1 AND
participant2_id = p2` (first matching row). -/
def findConv : List (Nat × Nat × Nat) → Nat → Nat → Option Nat
  | [], _, _ => none
  | (cid, q1, q2) :: t, p1, p2 =>
      if q1 = p1 ∧ q2 = p2 then some cid else findConv t p1 p2

namespace DatabaseManager

/-- `DatabaseManager.get_or_create_conversation`: canonicalize the pair with
`participant1_id = min`, `participant2_id = max`; return the existing row's id
or insert a fresh row. -/
def get_or_create_conversation (db : ConvDb) (user1_id user2_id : Nat) :
    ConvDb × Nat :=
  match findConv db.convs (min user1_id user2_id) (max user1_id user2_id) with
  | some cid => (db, cid)
  | none =>
      ({ nextConvId := db.nextConvId + 1,
         convs := db.convs ++
           [(db.nextConvId, min user1_id user2_id, max user1_id user2_id)] },
        db.nextConvId)

/-- A row of the `groups` table. -/
structure GroupRow where
  group_id : Nat
  group_name : String
  creator_id : Nat
  description : Option String
  is_active : Bool
deriving DecidableEq

/-- The tables `DatabaseManager.create_group` can touch: `groups`,
`group_members` (rows `(group_id, user_id, role)`) and — untouched by it —
`group_messages` (rows `(group_id, sender_id, sender_username, text)`). -/
structure GroupDb where
  nextGroupId : Nat
  groups : List GroupRow
  members : List (Nat × Nat × String)
  groupMessages : List (Nat × Nat × String × String)
deriving DecidableEq

/-- `DatabaseManager.create_group`: reject when an active group already bears
the name; otherwise insert the group row (active by schema default) and the
creator as an `'admin'` member, in one transaction.  Result triple mirrors
`(success, group_id, message)`. -/
def create_group (db : GroupDb) (group_name : String) (creator_id : Nat)
    (description : Option String) : GroupDb × (Bool × Option Nat × String) :=
  if db.groups.any (fun g => g.group_name = group_name ∧ g.is_active) then
    (db, (false, none, "Group name already exists"))
  else
    let gid := db.nextGroupId
    ({ nextGroupId := gid + 1,
       groups := db.groups ++ [⟨gid, group_name, creator_id, description, true⟩],
       members := db.members ++ [(gid, creator_id, "admin")],
       groupMessages := db.groupMessages },
      (true, some gid, "Group created successfully"))

end DatabaseManager

/-! ## Group chat service variant — `src/group_chat_manager.py`

This module targets the soft-delete schema variant: `group_members` carries
`is_active`, and group messages live in a `messages` table carrying
`message_type`. -/

/-- A single-quote character, as it appears inside the system-message text. -/
def squote : String := String.mk [Char.ofNat 39]

/-- The system-message text `GroupChatManager.create_group` inserts:
`Group '<name>' created by <creator>`. -/
def groupCreatedText (group_name creator_username : String) : String :=
  "Group " ++ squote ++ group_name ++ squote ++ " created by " ++
    creator_username

/-- The tables `GroupChatManager.create_group` touches: `users`
(`user_id ↦ username`), `groups`, `group_members` (rows
`(group_id, user_id, role, is_active)`), and `messages` (rows
`(group_id, sender_id, sender_username, message_text, message_type)`). -/
structure GcmDb where
  users : List (Nat × String)
  nextGroupId : Nat
  groups : List DatabaseManager.GroupRow
  members : List (Nat × Nat × String × Bool)
  messages : List (Nat × Nat × String × String × String)
deriving DecidableEq

/-- `SELECT username FROM users WHERE user_id = %s` (first row). -/
def findUser : List (Nat × String) → Nat → Option String
  | [], _ => none
  | (uid, name) :: t, u => if uid = u then some name else findUser t u

namespace GroupChatManager

/-- `GroupChatManager.create_group`: insert the group row, the creator as an
active `'admin'` member, and the system message
`Group '<name>' created by <creator>` (sender name `'System'`, type
`'system'`), committing the three inserts as one transaction; then publish a
`group_created` event.  There is no duplicate-name check; when the creator id
resolves to no user the transaction rolls back and the call fails.  Result
mirrors `(success, message-ignored, group_id)` with the text dropped. -/
def create_group (db : GcmDb) (rs : RedisState) (group_name description : String)
    (creator_user_id : Nat) (pubFail : Bool) :
    GcmDb × RedisState × (Bool × Option Nat) :=
  let gid := db.nextGroupId
  match findUser db.users creator_user_id with
  | none => (db, rs, (false, none))
  | some creator_username =>
      let db' : GcmDb :=
        { users := db.users,
          nextGroupId := gid + 1,
          groups := db.groups ++
            [⟨gid, group_name, creator_user_id, some description, true⟩],
          members := db.members ++ [(gid, creator_user_id, "admin", true)],
          messages := db.messages ++
            [(gid, creator_user_id, "System",
              groupCreatedText group_name creator_username, "system")] }
      let p := RedisManager.publish_message rs "group_events"
        (.groupCreated gid group_name creator_user_id) pubFail
      (db', p.1, (true, some gid))

end GroupChatManager

/-! ## Scaling controller — `src/autoscaler.py` -/

/-- The autoscaler's configuration (environment-derived fields the scaling
logic reads). -/
structure AutoCfg where
  min_replicas : Nat
  max_replicas : Nat
  users_per_pod : Nat
  scale_down_delay : Nat
deriving DecidableEq

/-- The default configuration: `MIN_REPLICAS=1`, `MAX_REPLICAS=10`,
`USERS_PER_POD=3`, `SCALE_DOWN_DELAY=60`. -/
def defaultCfg : AutoCfg := ⟨1, 10, 3, 60⟩

namespace ChatAutoscaler

/-- `ChatAutoscaler.get_online_user_count`: `scard("online_users")`, `0` on
exception. -/
def get_online_user_count (st : RedisState) (fail : Bool) : Nat :=
  if fail then 0 else st.onlineSet.length

/-- `ChatAutoscaler.calculate_desired_replicas`:
`min_replicas` when no users, else `ceil(user_count / users_per_pod)` bounded
by `max(min_replicas, min(· , max_replicas))`. -/
def calculate_desired_replicas (cfg : AutoCfg) (user_count : Nat) : Nat :=
  if user_count = 0 then cfg.min_replicas
  else
    let desired := (user_count + cfg.users_per_pod - 1) / cfg.users_per_pod
    max cfg.min_replicas (min desired cfg.max_replicas)

/-- The dictionary key `f"{current}->{desired}"` of
`ChatAutoscaler.last_scale_down_check`. -/
def scaleKey (current desired : Nat) : String :=
  toString current ++ "->" ++ toString desired

/-- `ChatAutoscaler.should_scale_down` over the `last_scale_down_check`
dictionary (key ↦ arming time): no when not a down-scale; on first sight of
the key, arm it at `now` and say no; before `scale_down_delay` has elapsed
say no; afterwards drop the key and say yes. -/
def should_scale_down (cfg : AutoCfg) (pending : List (String × Nat))
    (now current_replicas desired_replicas : Nat) :
    List (String × Nat) × Bool :=
  if current_replicas ≤ desired_replicas then (pending, false)
  else
    let key := scaleKey current_replicas desired_replicas
    match aget pending key with
    | none => (aset pending key now, false)
    | some t0 =>
        if now - t0 < cfg.scale_down_delay then (pending, false)
        else (adel pending key, true)

/-- What one iteration of `ChatAutoscaler.run` decides. -/
inductive CtrlAction
  /-- `current_replicas` could not be read; the tick is skipped. -/
  | skipTick
  /-- `desired == current`: no change, pending timers cleared. -/
  | noChange
  /-- Immediate up-scale patch to `n` replicas. -/
  | scaleUp (n : Nat)
  /-- Down-scale patch to `n` replicas, debounce satisfied. -/
  | scaleDown (n : Nat)
  /-- Down-scale wanted but still debouncing. -/
  | downPending
deriving DecidableEq

/-- One observation consumed by a tick: the wall clock, the
`online_users` cardinality read, and the deployment's replica count
(`none` when the read failed). -/
structure Obs where
  now : Nat
  users : Nat
  current : Option Nat
deriving DecidableEq

/-- One iteration of the `ChatAutoscaler.run` loop, as a function of the
debounce dictionary and the tick's observation. -/
def tick (cfg : AutoCfg) (pending : List (String × Nat)) (o : Obs) :
    List (String × Nat) × CtrlAction :=
  match o.current with
  | none => (pending, .skipTick)
  | some cur =>
      let desired := calculate_desired_replicas cfg o.users
      if cur = desired then ([], .noChange)
      else if cur < desired then ([], .scaleUp desired)
      else
        let r := should_scale_down cfg pending o.now cur desired
        if r.2 then (r.1, .scaleDown desired) else (r.1, .downPending)

/-- A run of consecutive ticks, returning the final debounce dictionary and
the per-tick decisions. -/
def run : AutoCfg → List (String × Nat) → List Obs →
    List (String × Nat) × List CtrlAction
  | _, pending, [] => (pending, [])
  | cfg, pending, o :: rest =>
      let r := tick cfg pending o
      let rr := run cfg r.1 rest
      (rr.1, r.2 :: rr.2)

end ChatAutoscaler

/-! ## Helper lemmas -/

theorem aget_adel_self {β : Type} (l : List (String × β)) (k : String) :
    aget (adel l k) k = none := by
  induction l with
  | nil => rfl
  | cons p t ih =>
      obtain ⟨k1, v⟩ := p
      by_cases h : k1 = k
      · simpa [adel, h] using ih
      · simpa [adel, aget, h] using ih

theorem aget_adel_ne {β : Type} (l : List (String × β)) {k k' : String}
    (h : k' ≠ k) : aget (adel l k) k' = aget l k' := by
  induction l with
  | nil => rfl
  | cons p t ih =>
      obtain ⟨k1, v⟩ := p
      by_cases hp : k1 = k
      · simp [adel, aget, hp, Ne.symm h, ih]
      · by_cases hq : k1 = k'
        · simp [adel, aget, hp, hq, h]
        · simp [adel, aget, hp, hq, ih]

theorem aget_aset_self {β : Type} (l : List (String × β)) (k : String) (v : β) :
    aget (aset l k v) k = some v := by
  simp [aset, aget]

theorem aget_aset_ne {β : Type} (l : List (String × β)) {k k' : String}
    (v : β) (h : k' ≠ k) : aget (aset l k v) k' = aget l k' := by
  simp [aset, aget, Ne.symm h, aget_adel_ne l h]

/-- `is_user_online` (without client failure) touches only the
`online_users` set. -/
theorem is_user_online_state (st : RedisState) (u : String) :
    ((RedisManager.is_user_online st u false).1.onlineDetail
        = st.onlineDetail) ∧
    ((RedisManager.is_user_online st u false).1.sessions = st.sessions) ∧
    ((RedisManager.is_user_online st u false).1.userSession
        = st.userSession) ∧
    ((RedisManager.is_user_online st u false).1.pending = st.pending) ∧
    ((RedisManager.is_user_online st u false).1.published = st.published) := by
  unfold RedisManager.is_user_online
  split_ifs <;> exact ⟨rfl, rfl, rfl, rfl, rfl⟩

/-- The value `is_user_online` reports, as a function of the two keys it
reads. -/
theorem is_user_online_val (st : RedisState) (u : String) :
    (RedisManager.is_user_online st u false).2 = true ↔
      u ∈ st.onlineSet ∧ (aget st.onlineDetail u).isSome := by
  unfold RedisManager.is_user_online
  by_cases hm : u ∈ st.onlineSet
  · by_cases hd : (aget st.onlineDetail u).isSome
    · simp [hm, hd]
    · simp [hm, hd]
  · simp [hm]

/-- Appending a canonical row to a table without one makes `findConv` find
it. -/
theorem findConv_append {l : List (Nat × Nat × Nat)} {p1 p2 cid : Nat}
    (h : findConv l p1 p2 = none) :
    findConv (l ++ [(cid, p1, p2)]) p1 p2 = some cid := by
  induction l with
  | nil => simp [findConv]
  | cons row t ih =>
      obtain ⟨c, q1, q2⟩ := row
      by_cases hq : q1 = p1 ∧ q2 = p2
      · simp [findConv, hq] at h
      · simp [findConv, hq] at h ⊢
        exact ih h

/-- The integer formula `(a + b - 1) / b` computes the ceiling of the exact
quotient `a / b`. -/
theorem add_pred_div_eq_ceil (a b : Nat) (hb : 0 < b) :
    (a + b - 1) / b = ⌈(a : ℚ) / (b : ℚ)⌉₊ := by
  have hbq : (0 : ℚ) < (b : ℚ) := by exact_mod_cast hb
  apply le_antisymm
  · rw [Nat.div_le_iff_le_mul_add_pred hb]
    have h1 : (a : ℚ) / b ≤ (⌈(a : ℚ) / b⌉₊ : ℚ) := Nat.le_ceil _
    have h2 : (a : ℚ) ≤ (⌈(a : ℚ) / b⌉₊ : ℚ) * b := by
      rwa [div_le_iff₀ hbq] at h1
    have h3 : a ≤ ⌈(a : ℚ) / b⌉₊ * b := by exact_mod_cast h2
    rw [mul_comm] at h3
    omega
  · apply Nat.ceil_le.2
    rw [div_le_iff₀ hbq]
    have h7 := Nat.div_add_mod (a + b - 1) b
    have h8 : (a + b - 1) % b < b := Nat.mod_lt _ hb
    have h5 : a ≤ (a + b - 1) / b * b := by
      rw [mul_comm]
      omega
    exact_mod_cast h5

/-! ## Claim theorems -/

/-- C2: `is_user_online(u)` (no client failure) returns `True` iff `u` is a
member of the `online_users` set and the `online_user:<u>` detail key exists;
when `u` is in the set without the detail key, the call removes `u` from the
set and reports offline, and the next `is_user_online(u)` and
`get_online_usernames()` agree with the (absent) detail key. -/
theorem C2_presence_reconciliation (st : RedisState) (u : String) :
    ((RedisManager.is_user_online st u false).2 = true ↔
      u ∈ st.onlineSet ∧ (aget st.onlineDetail u).isSome) ∧
    (u ∈ st.onlineSet → aget st.onlineDetail u = none →
      (RedisManager.is_user_online st u false).2 = false ∧
      (RedisManager.is_user_online st u false).1.onlineSet =
        st.onlineSet.filter (fun x => x ≠ u) ∧
      u ∉ (RedisManager.is_user_online st u false).1.onlineSet ∧
      (RedisManager.is_user_online
          (RedisManager.is_user_online st u false).1 u false).2 = false ∧
      u ∉ (RedisManager.get_online_usernames
          (RedisManager.is_user_online st u false).1 false).2) := by
  constructor
  · exact is_user_online_val st u
  · intro hm hd
    have hset : (RedisManager.is_user_online st u false).1.onlineSet =
        st.onlineSet.filter (fun x => x ≠ u) := by
      unfold RedisManager.is_user_online
      simp [hm, hd]
    have hnotmem : u ∉ (RedisManager.is_user_online st u false).1.onlineSet := by
      rw [hset]
      simp
    refine ⟨?_, hset, hnotmem, ?_, ?_⟩
    · unfold RedisManager.is_user_online
      simp [hm, hd]
    · rw [Bool.eq_false_iff]
      intro hcontr
      exact hnotmem ((is_user_online_val _ u).1 hcontr).1
    · unfold RedisManager.get_online_usernames
      simp only [Bool.false_eq_true, if_false]
      intro hmem
      exact hnotmem (List.mem_of_mem_filter hmem)

/-- C2 witness: a user in the set without a detail key is reconciled. -/
theorem C2_presence_reconciliation_witness :
    (RedisManager.is_user_online ⟨["u"], [], [], [], [], []⟩ "u" false).2
        = false ∧
    "u" ∉ (RedisManager.is_user_online
        ⟨["u"], [], [], [], [], []⟩ "u" false).1.onlineSet := by
  have h := (C2_presence_reconciliation ⟨["u"], [], [], [], [], []⟩ "u").2
    (by simp) rfl
  exact ⟨h.1, h.2.2.1⟩

/-- C5: `calculate_desired_replicas` returns `min_replicas` for a zero count
and otherwise the ceiling of `user_count / users_per_pod` clamped into
`[min_replicas, max_replicas]`; with the defaults, a count of 7 yields 3. -/
theorem C5_desired_replicas (cfg : AutoCfg) (user_count : Nat)
    (hpod : 0 < cfg.users_per_pod) :
    ChatAutoscaler.calculate_desired_replicas cfg user_count =
      (if user_count = 0 then cfg.min_replicas
       else
         max cfg.min_replicas
           (min ⌈(user_count : ℚ) / (cfg.users_per_pod : ℚ)⌉₊
             cfg.max_replicas)) ∧
    ChatAutoscaler.calculate_desired_replicas defaultCfg 7 = 3 := by
  constructor
  · unfold ChatAutoscaler.calculate_desired_replicas
    rw [add_pred_div_eq_ceil user_count cfg.users_per_pod hpod]
  · decide

/-- C5 witness: the default configuration at 7 users. -/
theorem C5_desired_replicas_witness :
    0 < defaultCfg.users_per_pod ∧
    ChatAutoscaler.calculate_desired_replicas defaultCfg 7 = 3 :=
  ⟨by decide, (C5_desired_replicas defaultCfg 7 (by decide)).2⟩

/-- C9: with the underlying client raising, every embedded `RedisManager`
operation returns its sentinel instead of propagating — `False` for
`add_online_user`, `remove_online_user`, `is_user_online`,
`save_pending_message`; `None` for `create_session`, `get_session`; `[]` for
`get_online_usernames`, `get_pending_messages` — so a coordinator failure
makes `is_user_online` report offline. -/
theorem C9_failure_sentinels (st : RedisState)
    (u sid content ts token : String) (uid : Nat) (clear : Bool) :
    RedisManager.add_online_user st u sid uid true = (st, false) ∧
    RedisManager.remove_online_user st u true = (st, false) ∧
    RedisManager.is_user_online st u true = (st, false) ∧
    RedisManager.save_pending_message st u content ts true = (st, false) ∧
    RedisManager.create_session st u uid token true = (st, none) ∧
    RedisManager.get_session st token true = (st, none) ∧
    RedisManager.get_online_usernames st true = (st, []) ∧
    RedisManager.get_pending_messages st u clear true = (st, []) :=
  ⟨rfl, rfl, rfl, rfl, rfl, rfl, rfl, rfl⟩

/-- C10: a failed `online_users`-cardinality read yields count 0, so that
tick computes `desired = min_replicas` (and, once a down-scale timer armed at
least `scale_down_delay` ago exists, patches down to `min_replicas`); a
failed deployment-status read instead skips the tick with no scaling
decision. -/
theorem C10_controller_failures (st : RedisState) (cfg : AutoCfg)
    (pending : List (String × Nat)) (users cur now : Nat) :
    ChatAutoscaler.get_online_user_count st true = 0 ∧
    ChatAutoscaler.tick cfg pending
        ⟨now, ChatAutoscaler.get_online_user_count st true, some cur⟩ =
      ChatAutoscaler.tick cfg pending ⟨now, 0, some cur⟩ ∧
    ChatAutoscaler.calculate_desired_replicas cfg 0 = cfg.min_replicas ∧
    ChatAutoscaler.tick cfg pending ⟨now, users, none⟩ =
      (pending, .skipTick) ∧
    (∀ t0 : Nat, cfg.min_replicas < cur →
      aget pending (ChatAutoscaler.scaleKey cur cfg.min_replicas) = some t0 →
      cfg.scale_down_delay ≤ now - t0 →
      ChatAutoscaler.tick cfg pending ⟨now, 0, some cur⟩ =
        (adel pending (ChatAutoscaler.scaleKey cur cfg.min_replicas),
          .scaleDown cfg.min_replicas)) := by
  refine ⟨rfl, rfl, rfl, rfl, ?_⟩
  intro t0 hlt hkey hdelay
  have hdes : ChatAutoscaler.calculate_desired_replicas cfg 0 =
      cfg.min_replicas := rfl
  have h1 : ¬ cur = cfg.min_replicas := by omega
  have h2 : ¬ cur < cfg.min_replicas := by omega
  have h3 : ¬ cur ≤ cfg.min_replicas := by omega
  simp [ChatAutoscaler.tick, ChatAutoscaler.should_scale_down, hdes, hkey,
    Nat.not_lt.2 hdelay, h1, h2, h3]

/-- C1: for a call of `send_to_user` in which the coordinator client does not
raise: when the coordinator does not report the target online the call
returns `False` and sends nothing; when the target has a local-presence entry
on this replica, the message line is appended to that session's writer and
the call returns `True`; otherwise the
`{target_username, message, sender_server_id}` envelope is published on
`chat_messages` and the call returns `True`. -/
theorem C1_send_to_user_routing (rs : ReplicaState) (sid target msg : String) :
    ((RedisManager.is_user_online rs.redis target false).2 = false →
      (ChatServer.send_to_user rs sid target msg false false).2 = false ∧
      (ChatServer.send_to_user rs sid target msg false false).1.localWriters =
        rs.localWriters ∧
      (ChatServer.send_to_user rs sid target msg false
          false).1.redis.published = rs.redis.published) ∧
    ((RedisManager.is_user_online rs.redis target false).2 = true →
      ∀ w : List String, aget rs.localWriters target = some w →
      (ChatServer.send_to_user rs sid target msg false false).2 = true ∧
      aget (ChatServer.send_to_user rs sid target msg false
          false).1.localWriters target = some (w ++ [msg]) ∧
      (ChatServer.send_to_user rs sid target msg false
          false).1.redis.published = rs.redis.published) ∧
    ((RedisManager.is_user_online rs.redis target false).2 = true →
      aget rs.localWriters target = none →
      (ChatServer.send_to_user rs sid target msg false false).2 = true ∧
      (ChatServer.send_to_user rs sid target msg false false).1.localWriters =
        rs.localWriters ∧
      (ChatServer.send_to_user rs sid target msg false
          false).1.redis.published =
        rs.redis.published ++
          [("chat_messages", Payload.chatMsg target msg sid)]) := by
  have hpub := (is_user_online_state rs.redis target).2.2.2.2
  refine ⟨?_, ?_, ?_⟩
  · intro hr
    simp [ChatServer.send_to_user, hr, hpub]
  · intro hr w hw
    simp [ChatServer.send_to_user, hr, hw, ChatServer.write_line,
      aget_aset_self, hpub]
  · intro hr hw
    simp [ChatServer.send_to_user, hr, hw, RedisManager.publish_message, hpub]

/-- C1 witness: a target online on another replica gets its envelope
published. -/
theorem C1_send_to_user_routing_witness :
    (ChatServer.send_to_user
        ⟨⟨["bob"], [("bob", ⟨"pod2", 2⟩)], [], [], [], []⟩, []⟩
        "pod1" "bob" "MESSAGE:alice:hi" false false).2 = true ∧
    (ChatServer.send_to_user
        ⟨⟨["bob"], [("bob", ⟨"pod2", 2⟩)], [], [], [], []⟩, []⟩
        "pod1" "bob" "MESSAGE:alice:hi" false
        false).1.redis.published =
      [("chat_messages", Payload.chatMsg "bob" "MESSAGE:alice:hi" "pod1")] := by
  have h := (C1_send_to_user_routing
      ⟨⟨["bob"], [("bob", ⟨"pod2", 2⟩)], [], [], [], []⟩, []⟩
      "pod1" "bob" "MESSAGE:alice:hi").2.2 (by decide) (by decide)
  exact ⟨h.1, h.2.2⟩

/-- C4: draining `pending_messages` with `clear=True` returns the stored
list and deletes the key, so an immediate second drain — in particular a
second `RESUME_SESSION` with the same token — returns zero pending
messages. -/
theorem C4_drain_idempotent (st : RedisState) (u token : String) :
    ((RedisManager.get_pending_messages st u true false).2 =
        (aget st.pending u).getD [] ∧
      aget (RedisManager.get_pending_messages st u true false).1.pending u =
        none ∧
      (RedisManager.get_pending_messages
          (RedisManager.get_pending_messages st u true false).1 u true
          false).2 = []) ∧
    (∀ data : SessionData, aget st.sessions token = some data →
      data.username ≠ "" → data.user_id ≠ 0 →
      (UserThread.handle_session_resume st token).2 =
        some (data.username, data.user_id,
          (aget st.pending data.username).getD []) ∧
      (UserThread.handle_session_resume
          (UserThread.handle_session_resume st token).1 token).2 =
        some (data.username, data.user_id, [])) := by
  constructor
  · refine ⟨rfl, ?_, ?_⟩
    · simp [RedisManager.get_pending_messages, aget_adel_self]
    · simp [RedisManager.get_pending_messages, aget_adel_self]
  · intro data hdata hu hi
    constructor
    · simp [UserThread.handle_session_resume, RedisManager.get_session,
        RedisManager.remove_online_user, RedisManager.update_session_heartbeat,
        RedisManager.get_pending_messages, hdata, hu, hi]
    · simp [UserThread.handle_session_resume, RedisManager.get_session,
        RedisManager.remove_online_user, RedisManager.update_session_heartbeat,
        RedisManager.get_pending_messages, hdata, hu, hi, aget_adel_self]

/-- C4 witness: resuming twice with the same token; the second drain is
empty. -/
theorem C4_drain_idempotent_witness :
    (UserThread.handle_session_resume
        ⟨[], [], [("t", ⟨"alice", 1⟩)], [("alice", "t")],
          [("alice", [⟨"hi", "ts"⟩])], []⟩ "t").2 =
      some ("alice", 1, [⟨"hi", "ts"⟩]) ∧
    (UserThread.handle_session_resume
        (UserThread.handle_session_resume
          ⟨[], [], [("t", ⟨"alice", 1⟩)], [("alice", "t")],
            [("alice", [⟨"hi", "ts"⟩])], []⟩ "t").1 "t").2 =
      some ("alice", 1, []) := by
  have h := (C4_drain_idempotent
      ⟨[], [], [("t", ⟨"alice", 1⟩)], [("alice", "t")],
        [("alice", [⟨"hi", "ts"⟩])], []⟩ "x" "t").2
    ⟨"alice", 1⟩ (by decide) (by decide) (by decide)
  exact ⟨h.1, h.2⟩

/-- C7: `get_or_create_conversation` is symmetric in its two users, stores
the pair canonically as `(min, max)`, and repeated calls with the same
unordered pair return the same conversation id without further writes. -/
theorem C7_conversation_canonical (db : ConvDb) (a b : Nat) (hab : a ≠ b) :
    DatabaseManager.get_or_create_conversation db a b =
      DatabaseManager.get_or_create_conversation db b a ∧
    findConv (DatabaseManager.get_or_create_conversation db a b).1.convs
        (min a b) (max a b) =
      some (DatabaseManager.get_or_create_conversation db a b).2 ∧
    DatabaseManager.get_or_create_conversation
        (DatabaseManager.get_or_create_conversation db a b).1 a b =
      ((DatabaseManager.get_or_create_conversation db a b).1,
        (DatabaseManager.get_or_create_conversation db a b).2) ∧
    DatabaseManager.get_or_create_conversation
        (DatabaseManager.get_or_create_conversation db a b).1 b a =
      ((DatabaseManager.get_or_create_conversation db a b).1,
        (DatabaseManager.get_or_create_conversation db a b).2) := by
  have e1 : ∀ d : ConvDb, DatabaseManager.get_or_create_conversation d b a =
      DatabaseManager.get_or_create_conversation d a b := by
    intro d
    unfold DatabaseManager.get_or_create_conversation
    rw [Nat.min_comm b a, Nat.max_comm b a]
  cases hf : findConv db.convs (min a b) (max a b) with
  | some cid =>
      have hg : DatabaseManager.get_or_create_conversation db a b =
          (db, cid) := by
        unfold DatabaseManager.get_or_create_conversation
        rw [hf]
      exact ⟨(e1 db).symm, by rw [hg]; exact hf, by rw [hg]; exact hg,
        by rw [hg]; rw [e1 db]; exact hg⟩
  | none =>
      have hg : DatabaseManager.get_or_create_conversation db a b =
          (⟨db.nextConvId + 1,
            db.convs ++ [(db.nextConvId, min a b, max a b)]⟩,
            db.nextConvId) := by
        unfold DatabaseManager.get_or_create_conversation
        rw [hf]
      have hfind2 : findConv
          (db.convs ++ [(db.nextConvId, min a b, max a b)])
          (min a b) (max a b) = some db.nextConvId := findConv_append hf
      have hg2 : DatabaseManager.get_or_create_conversation
          (⟨db.nextConvId + 1,
            db.convs ++ [(db.nextConvId, min a b, max a b)]⟩ : ConvDb) a b =
          (⟨db.nextConvId + 1,
            db.convs ++ [(db.nextConvId, min a b, max a b)]⟩,
            db.nextConvId) := by
        unfold DatabaseManager.get_or_create_conversation
        rw [hfind2]
      exact ⟨(e1 db).symm, by rw [hg]; exact hfind2, by rw [hg]; exact hg2,
        by rw [hg]; rw [e1]; exact hg2⟩

/-- C7 witness: users 2 and 1 on an empty table. -/
theorem C7_conversation_canonical_witness :
    DatabaseManager.get_or_create_conversation ⟨1, []⟩ 2 1 =
      DatabaseManager.get_or_create_conversation ⟨1, []⟩ 1 2 :=
  (C7_conversation_canonical ⟨1, []⟩ 2 1 (by decide)).1

/-- C10 witness: with a failed user-count read, a 3-replica deployment whose
down-scale timer is 60 s old is patched to the minimum. -/
theorem C10_controller_failures_witness :
    ChatAutoscaler.tick defaultCfg [("3->1", 0)] ⟨60, 0, some 3⟩ =
      (adel [("3->1", 0)] (ChatAutoscaler.scaleKey 3 1), .scaleDown 1) :=
  (C10_controller_failures ⟨[], [], [], [], [], []⟩ defaultCfg
      [("3->1", 0)] 0 3 60).2.2.2.2 0 (by decide) (by decide) (by decide)

/-- C3: `bye` from the menu reaches the same `finally` cleanup as every
other exit: presence (local and coordinator) is removed and the durable
session is closed, but — `RedisManager.delete_session` being invoked
nowhere — the `session:<token>`, `user_session:<username>` and
`pending_messages:<username>` keys all survive, contradicting the claimed
token revocation; the final conjunct shows the never-called `delete_session`
is exactly what would have removed them. -/
theorem C3_bye_no_revocation :
    UserThread.run_cleanup
        ⟨⟨["alice"], [("alice", ⟨"pod1", 1⟩)], [("t", ⟨"alice", 1⟩)],
          [("alice", "t")], [("alice", [⟨"hi", "ts"⟩])], []⟩,
          [("alice", [])], [(5, true)]⟩ "alice" (some 5) =
      ⟨⟨[], [], [("t", ⟨"alice", 1⟩)], [("alice", "t")],
          [("alice", [⟨"hi", "ts"⟩])], []⟩, [], [(5, false)]⟩ ∧
    RedisManager.delete_session
        ⟨[], [], [("t", ⟨"alice", 1⟩)], [("alice", "t")],
          [("alice", [⟨"hi", "ts"⟩])], []⟩ "t" false =
      (⟨[], [], [], [], [], []⟩, true) := by
  decide

/-- C6 counterexample: with the default configuration and three replicas, the
timer keyed `3->1` armed at t=0 is not reset when the observed desired
changes to 2 at t=30; at t=70 the down-scale to 1 fires although desired=1
has been observed continuously for 0 s (and only 40 s have passed since
desired was last different), refuting continuous-observation debouncing. -/
theorem C6_down_scale_timer_not_reset :
    (ChatAutoscaler.run defaultCfg []
        [⟨0, 2, some 3⟩, ⟨30, 5, some 3⟩, ⟨70, 2, some 3⟩]).2 =
      [.downPending, .downPending, .scaleDown 1] ∧
    ChatAutoscaler.calculate_desired_replicas defaultCfg 2 = 1 ∧
    ChatAutoscaler.calculate_desired_replicas defaultCfg 5 = 2 ∧
    70 - 30 < defaultCfg.scale_down_delay := by
  decide

/-- C6 (amended): a down-scale patch is applied only when at least
`scale_down_delay` seconds have elapsed since the debounce timer keyed by the
`(current → desired)` pair was first armed; that key is armed on the first
tick that observes the pair; a tick observing `desired == current` clears all
pending timers and a scale-up is applied in the same tick (also clearing
them) — but an armed timer is not reset by a change of the observed desired
to a different down-scale value. -/
theorem C6_down_scale_debounce (cfg : AutoCfg) (pending : List (String × Nat))
    (o : ChatAutoscaler.Obs) (cur : Nat) (hcur : o.current = some cur) :
    (cur = ChatAutoscaler.calculate_desired_replicas cfg o.users →
      ChatAutoscaler.tick cfg pending o = ([], .noChange)) ∧
    (cur < ChatAutoscaler.calculate_desired_replicas cfg o.users →
      ChatAutoscaler.tick cfg pending o =
        ([], .scaleUp (ChatAutoscaler.calculate_desired_replicas cfg
          o.users))) ∧
    (∀ n : Nat, (ChatAutoscaler.tick cfg pending o).2 = .scaleDown n →
      n = ChatAutoscaler.calculate_desired_replicas cfg o.users ∧ n < cur ∧
      ∃ t0 : Nat, aget pending (ChatAutoscaler.scaleKey cur n) = some t0 ∧
        cfg.scale_down_delay ≤ o.now - t0) ∧
    (ChatAutoscaler.calculate_desired_replicas cfg o.users < cur →
      aget pending (ChatAutoscaler.scaleKey cur
        (ChatAutoscaler.calculate_desired_replicas cfg o.users)) = none →
      ChatAutoscaler.tick cfg pending o =
        (aset pending (ChatAutoscaler.scaleKey cur
          (ChatAutoscaler.calculate_desired_replicas cfg o.users)) o.now,
          .downPending)) := by
  obtain ⟨now, users, oc⟩ := o
  have hoc : oc = some cur := hcur
  subst hoc
  generalize hdes : ChatAutoscaler.calculate_desired_replicas cfg users = des
  refine ⟨?_, ?_, ?_, ?_⟩
  · intro h
    simp [ChatAutoscaler.tick, hdes, h]
  · intro h
    have hne : ¬ cur = des := by omega
    simp [ChatAutoscaler.tick, hdes, hne, h]
  · intro n hsd
    by_cases h1 : cur = des
    · simp [ChatAutoscaler.tick, hdes, h1] at hsd
    · by_cases h2 : cur < des
      · simp [ChatAutoscaler.tick, hdes, h1, h2] at hsd
      · have h3 : ¬ cur ≤ des := by omega
        cases haget : aget pending (ChatAutoscaler.scaleKey cur des) with
        | none =>
            simp [ChatAutoscaler.tick, ChatAutoscaler.should_scale_down,
              hdes, h1, h2, h3, haget] at hsd
        | some t0 =>
            by_cases h5 : now - t0 < cfg.scale_down_delay
            · simp [ChatAutoscaler.tick, ChatAutoscaler.should_scale_down,
                hdes, h1, h2, h3, haget, h5] at hsd
            · simp [ChatAutoscaler.tick, ChatAutoscaler.should_scale_down,
                hdes, h1, h2, h3, haget, h5] at hsd
              subst hsd
              exact ⟨rfl, by omega, t0, haget, Nat.not_lt.1 h5⟩
  · intro h3 hnone
    have h1 : ¬ cur = des := by omega
    have h2 : ¬ cur < des := by omega
    have h4 : ¬ cur ≤ des := by omega
    simp [ChatAutoscaler.tick, ChatAutoscaler.should_scale_down, hdes,
      h1, h2, h4, hnone]

/-- C6 witness: first sight of a down-scale pair arms the timer and defers
the patch. -/
theorem C6_down_scale_debounce_witness :
    ChatAutoscaler.tick defaultCfg [] ⟨5, 2, some 3⟩ =
      (aset [] (ChatAutoscaler.scaleKey 3 1) 5, .downPending) :=
  (C6_down_scale_debounce defaultCfg [] ⟨5, 2, some 3⟩ 3 rfl).2.2.2
    (by decide) (by decide)

/-- C8 counterexample: `DatabaseManager.create_group` — the variant the
session layer invokes — succeeds while inserting no system message at all
(its `group_messages` table stays empty); and `GroupChatManager.create_group`
succeeds although an active group of the same name already exists, instead of
failing with NameTaken. -/
theorem C8_create_group_variants_counterexample :
    DatabaseManager.create_group ⟨1, [], [], []⟩ "g" 7 none =
      (⟨2, [⟨1, "g", 7, none, true⟩], [(1, 7, "admin")], []⟩,
        (true, some 1, "Group created successfully")) ∧
    (GroupChatManager.create_group
        ⟨[(7, "amy")], 2, [⟨1, "g", 7, some "", true⟩], [], []⟩
        ⟨[], [], [], [], [], []⟩ "g" "" 7 false).2.2.1 = true := by
  decide

/-- C8 (amended): `DatabaseManager.create_group` fails with NameTaken when an
active group of the same name exists and otherwise inserts the group row and
the creator as an `'admin'` member in one transaction, inserting no system
message; the `GroupChatManager.create_group` variant inserts the group row,
the creator as an active admin member, and the system message
`Group '<name>' created by <creator>` in one transaction (rolling back all
three when the creator id resolves to no user), but performs no
duplicate-name check. -/
theorem C8_create_group_variants (db : DatabaseManager.GroupDb)
    (name : String) (creator : Nat) (desc : Option String) :
    ((∃ g ∈ db.groups, g.group_name = name ∧ g.is_active) →
      DatabaseManager.create_group db name creator desc =
        (db, (false, none, "Group name already exists"))) ∧
    ((∀ g ∈ db.groups, g.group_name = name → g.is_active = false) →
      DatabaseManager.create_group db name creator desc =
        (⟨db.nextGroupId + 1,
          db.groups ++ [⟨db.nextGroupId, name, creator, desc, true⟩],
          db.members ++ [(db.nextGroupId, creator, "admin")],
          db.groupMessages⟩,
          (true, some db.nextGroupId, "Group created successfully"))) ∧
    (∀ (gdb : GcmDb) (rs : RedisState) (gname gdesc cname : String)
        (cid : Nat) (pubFail : Bool),
      findUser gdb.users cid = some cname →
      GroupChatManager.create_group gdb rs gname gdesc cid pubFail =
        (⟨gdb.users, gdb.nextGroupId + 1,
          gdb.groups ++ [⟨gdb.nextGroupId, gname, cid, some gdesc, true⟩],
          gdb.members ++ [(gdb.nextGroupId, cid, "admin", true)],
          gdb.messages ++ [(gdb.nextGroupId, cid, "System",
            groupCreatedText gname cname, "system")]⟩,
          (RedisManager.publish_message rs "group_events"
            (.groupCreated gdb.nextGroupId gname cid) pubFail).1,
          (true, some gdb.nextGroupId))) ∧
    (∀ (gdb : GcmDb) (rs : RedisState) (gname gdesc : String) (cid : Nat)
        (pubFail : Bool),
      findUser gdb.users cid = none →
      GroupChatManager.create_group gdb rs gname gdesc cid pubFail =
        (gdb, rs, (false, none))) := by
  refine ⟨?_, ?_, ?_, ?_⟩
  · intro h
    have hany : db.groups.any
        (fun g => g.group_name = name ∧ g.is_active) = true := by
      simp only [List.any_eq_true, decide_eq_true_eq]
      exact h
    unfold DatabaseManager.create_group
    rw [if_pos hany]
  · intro h
    have hany : ¬ (db.groups.any
        (fun g => g.group_name = name ∧ g.is_active) = true) := by
      simp only [List.any_eq_true, decide_eq_true_eq, not_exists, not_and]
      intro g hg h1
      simp [h g hg h1]
    unfold DatabaseManager.create_group
    rw [if_neg hany]
  · intro gdb rs gname gdesc cname cid pubFail h
    simp [GroupChatManager.create_group, h]
  · intro gdb rs gname gdesc cid pubFail h
    simp [GroupChatManager.create_group, h]

/-- C8 witness: creating a group on an empty table inserts the group row and
the admin membership and leaves `group_messages` empty. -/
theorem C8_create_group_variants_witness :
    DatabaseManager.create_group ⟨5, [], [], []⟩ "study" 2 none =
      (⟨6, [⟨5, "study", 2, none, true⟩], [(5, 2, "admin")], []⟩,
        (true, some 5, "Group created successfully")) :=
  (C8_create_group_variants ⟨5, [], [], []⟩ "study" 2 none).2.1 (by simp)

end ChatSpec
